import Mathlib

/-!
Verification of the chidori cell-to-operation compiler core.

Shallow embedding of:
  - src/toolchain/chidori-core/src/cells/code_cell.rs
  - src/toolchain/chidori-core/src/cells/code_gen_cell.rs
  - src/toolchain/chidori-core/src/cells/llm_prompt_cell.rs
  - src/toolchain/chidori-core/src/sdk/bindings.rs
  - src/toolchain/chidori-core/src/library/std/ai/llm/openai/batch.rs

External collaborators (the chidori-prompt-format templating engine, the
static-analysis crates, the embedded interpreters and the OpenAI client)
are modelled as explicit function parameters; types that live outside the
given sources (RkyvSerializedValue, the signature model, OperationFnOutput)
are reconstructed from their uses in these files and from the spec.

Rust HashMaps are modelled as association lists recording insertion order;
`insertKV` mirrors HashMap::insert (replace if present, append otherwise).
Rust panics in pure code are modelled as a distinguished error value
(`CompileFailure.panicFatal`) or as `Option.none`, depending on the
function's embedded return type.
-/

namespace Chidori

/-- The core serialized value type (`RkyvSerializedValue`, from
`execution/primitives/serialized_value.rs`, reconstructed from its uses in
`sdk/bindings.rs` and from the spec's closed value set: float, number,
string, boolean, null, array, object, plus the two opaque marker kinds).
Numeric payloads are abstracted to `Int` (no claim depends on
floating-point arithmetic); pointer payloads are abstracted to `Nat`. -/
inductive RkyvSerializedValue where
  | Float (x : Int)
  | Number (x : Int)
  | String (s : String)
  | Boolean (b : Bool)
  | Null
  | Array (val : List RkyvSerializedValue)
  | Object (val : List (String × RkyvSerializedValue))
  | StreamPointer (p : Nat)
  | FunctionPointer (p : Nat)
deriving Repr, Inhabited

/-- HashMap lookup over the association-list model (`HashMap::get`). -/
def lookupKV (m : List (String × β)) (k : String) : Option β :=
  match m.find? (fun p => p.1 == k) with
  | some p => some p.2
  | none => none

/-- HashMap insert over the association-list model (`HashMap::insert`):
replaces the value when the key is present, appends otherwise. -/
def insertKV (m : List (String × β)) (k : String) (v : β) : List (String × β) :=
  if m.any (fun p => p.1 == k) then
    m.map (fun p => if p.1 == k then (k, v) else p)
  else
    m ++ [(k, v)]

/-- `InputType` from `execution/primitives/operation.rs`; only the `String`
variant is used by these sources. -/
inductive InputType where
  | String
deriving Repr, DecidableEq, Inhabited

/-- `InputItemConfiguration { ty: Option<InputType>, default: Option<RkyvSerializedValue> }`. -/
structure InputItemConfiguration where
  ty : Option InputType
  default : Option RkyvSerializedValue
deriving Repr, Inhabited

/-- `llm_prompt_cell.rs` spells the same struct `InputItemConfiguation`. -/
abbrev InputItemConfiguation := InputItemConfiguration

/-- `InputSignature { globals, args }`: two name-keyed mappings. -/
structure InputSignature where
  globals : List (String × InputItemConfiguration)
  args : List (String × InputItemConfiguration)
deriving Repr, Inhabited

/-- `InputSignature::new()`. -/
def InputSignature.new : InputSignature := ⟨[], []⟩

/-- `OutputItemConfiguration`: a plain exposed value, or an exposed callable
with its own nested input signature and event tags. -/
inductive OutputItemConfiguration where
  | Value
  | Function (input_signature : InputSignature)
      (emit_event : List String) (trigger_on : List String)
deriving Repr, Inhabited

/-- `OutputSignature { globals, functions }`. -/
structure OutputSignature where
  globals : List (String × OutputItemConfiguration)
  functions : List (String × OutputItemConfiguration)
deriving Repr, Inhabited

/-- `OutputSignature::new()`. -/
def OutputSignature.new : OutputSignature := ⟨[], []⟩

/-- A triggerable function entry of the static-analysis `Report`
(spec §6: `{ arguments: ordered sequence of name }`). -/
structure TriggerableFunction where
  arguments : List String
deriving Repr, DecidableEq, Inhabited

/-- The static-analysis dependency `Report` (external collaborator interface,
spec §6): set-like mappings of depended/exposed names and the triggerable
functions with their argument lists. -/
structure Report where
  cell_depended_values : List (String × Unit)
  cell_exposed_values : List (String × Unit)
  triggerable_functions : List (String × TriggerableFunction)
deriving Repr, DecidableEq, Inhabited

/-- `signatures_from_report` (code_cell.rs lines 93-132): derives the input
and output signatures from a static-analysis report. -/
def signatures_from_report (report : Report) : InputSignature × OutputSignature :=
  let input_signature : InputSignature :=
    { InputSignature.new with
      globals := report.cell_depended_values.foldl
        (fun g kv => insertKV g kv.1 { ty := some InputType.String, default := none }) [] }
  let output_globals := report.cell_exposed_values.foldl
    (fun g kv => insertKV g kv.1 OutputItemConfiguration.Value) []
  let output_functions := report.triggerable_functions.foldl
    (fun fns kv =>
      let fn_input : InputSignature :=
        { InputSignature.new with
          args := kv.2.arguments.foldl
            (fun a arg => insertKV a arg { ty := some InputType.String, default := none }) [] }
      insertKV fns kv.1 (OutputItemConfiguration.Function fn_input [] []))
    []
  (input_signature, { OutputSignature.new with globals := output_globals, functions := output_functions })

theorem insertKV_of_not_mem {β : Type} (m : List (String × β)) (k : String) (v : β)
    (h : k ∉ m.map Prod.fst) : insertKV m k v = m ++ [(k, v)] := by
  unfold insertKV
  rw [if_neg]
  intro hc
  rcases List.any_eq_true.mp hc with ⟨p, hp, hpk⟩
  exact h (List.mem_map.mpr ⟨p, hp, by simpa using hpk⟩)

theorem foldl_insertKV_fresh {α β : Type} (key : α → String) (f : α → β) :
    ∀ (xs : List α) (m : List (String × β)),
    (xs.map key).Nodup →
    (∀ k ∈ xs.map key, k ∉ m.map Prod.fst) →
    xs.foldl (fun g a => insertKV g (key a) (f a)) m
      = m ++ xs.map (fun a => (key a, f a)) := by
  intro xs
  induction xs with
  | nil => intro m _ _; simp
  | cons x rest ih =>
    intro m hnd hfresh
    have hk : key x ∉ m.map Prod.fst := hfresh (key x) (by simp)
    have hnd' : (rest.map key).Nodup := (List.nodup_cons.mp (by simpa using hnd)).2
    have hknotin : key x ∉ rest.map key := (List.nodup_cons.mp (by simpa using hnd)).1
    have hfresh' : ∀ k ∈ rest.map key, k ∉ (m ++ [(key x, f x)]).map Prod.fst := by
      intro k hkmem
      simp only [List.map_append, List.mem_append, List.map_cons, List.map_nil,
        List.mem_singleton]
      rintro (hin | hin)
      · exact hfresh k (by simp [hkmem]) hin
      · exact hknotin (by simpa [hin] using hkmem)
    simp only [List.foldl_cons]
    rw [insertKV_of_not_mem m (key x) (f x) hk, ih (m ++ [(key x, f x)]) hnd' hfresh']
    simp

/-- The unconstrained string-typed, default-less input configuration that
`signatures_from_report` assigns to every derived input. -/
def stringInputConfig : InputItemConfiguration :=
  { ty := some InputType.String, default := none }

/-- C2: `signatures_from_report` is a pure function of the report mapping
each depended-upon value to exactly one string-typed default-less
`InputSignature.globals` entry, each exposed value to an
`OutputSignature.globals` `Value` entry, and each triggerable function to an
`OutputSignature.functions` `Function` entry whose fresh input signature
holds exactly that function's declared arguments under `args`, with empty
`emit_event` and `trigger_on`; in particular for the report with depended
values a,b, exposed value c and triggerable function f(x,y) the result is
exactly globals a,b / globals c / function f with args x,y. -/
theorem spec_C2_signatures_from_report :
    (∀ report : Report,
      (report.cell_depended_values.map Prod.fst).Nodup →
      (report.cell_exposed_values.map Prod.fst).Nodup →
      (report.triggerable_functions.map Prod.fst).Nodup →
      (∀ kv ∈ report.triggerable_functions, kv.2.arguments.Nodup) →
      signatures_from_report report =
        ({ globals := report.cell_depended_values.map (fun kv => (kv.1, stringInputConfig)),
           args := [] },
         { globals := report.cell_exposed_values.map
             (fun kv => (kv.1, OutputItemConfiguration.Value)),
           functions := report.triggerable_functions.map (fun kv =>
             (kv.1, OutputItemConfiguration.Function
               { globals := [],
                 args := kv.2.arguments.map (fun a => (a, stringInputConfig)) } [] [])) }))
    ∧ signatures_from_report
        { cell_depended_values := [("a", ()), ("b", ())],
          cell_exposed_values := [("c", ())],
          triggerable_functions := [("f", { arguments := ["x", "y"] })] } =
      ({ globals := [("a", stringInputConfig), ("b", stringInputConfig)], args := [] },
       { globals := [("c", OutputItemConfiguration.Value)],
         functions := [("f", OutputItemConfiguration.Function
           { globals := [], args := [("x", stringInputConfig), ("y", stringInputConfig)] }
           [] [])] }) := by
  constructor
  · intro report hnd1 hnd2 hnd3 hnd4
    have e1 : report.cell_depended_values.foldl
        (fun g kv => insertKV g kv.1 { ty := some InputType.String, default := none }) []
        = report.cell_depended_values.map (fun kv => (kv.1, stringInputConfig)) := by
      have := foldl_insertKV_fresh Prod.fst
        (fun _ : String × Unit => stringInputConfig)
        report.cell_depended_values [] hnd1 (by simp)
      simpa [stringInputConfig] using this
    have e2 : report.cell_exposed_values.foldl
        (fun g kv => insertKV g kv.1 OutputItemConfiguration.Value) []
        = report.cell_exposed_values.map (fun kv => (kv.1, OutputItemConfiguration.Value)) := by
      have := foldl_insertKV_fresh Prod.fst
        (fun _ : String × Unit => OutputItemConfiguration.Value)
        report.cell_exposed_values [] hnd2 (by simp)
      simpa using this
    have e3 : report.triggerable_functions.foldl
        (fun fns kv => insertKV fns kv.1 (OutputItemConfiguration.Function
          { InputSignature.new with
            args := kv.2.arguments.foldl
              (fun a arg => insertKV a arg { ty := some InputType.String, default := none }) [] }
          [] [])) []
        = report.triggerable_functions.map (fun kv =>
            (kv.1, OutputItemConfiguration.Function
              { InputSignature.new with
                args := kv.2.arguments.foldl
                  (fun a arg => insertKV a arg { ty := some InputType.String, default := none }) [] }
              [] [])) := by
      have := foldl_insertKV_fresh Prod.fst
        (fun kv : String × TriggerableFunction => OutputItemConfiguration.Function
          { InputSignature.new with
            args := kv.2.arguments.foldl
              (fun a arg => insertKV a arg { ty := some InputType.String, default := none }) [] }
          [] [])
        report.triggerable_functions [] hnd3 (by simp)
      simpa using this
    have e4 : report.triggerable_functions.map (fun kv =>
          (kv.1, OutputItemConfiguration.Function
            { InputSignature.new with
              args := kv.2.arguments.foldl
                (fun a arg => insertKV a arg { ty := some InputType.String, default := none }) [] }
            [] []))
        = report.triggerable_functions.map (fun kv =>
            (kv.1, OutputItemConfiguration.Function
              { globals := [],
                args := kv.2.arguments.map (fun a => (a, stringInputConfig)) } [] [])) := by
      refine List.map_congr_left ?_
      intro kv hkv
      have harg : kv.2.arguments.foldl
          (fun a arg => insertKV a arg ({ ty := some InputType.String, default := none } :
            InputItemConfiguration)) []
          = kv.2.arguments.map (fun a => (a, stringInputConfig)) := by
        have := foldl_insertKV_fresh (fun s : String => s)
          (fun _ : String => stringInputConfig)
          kv.2.arguments [] (by simpa using hnd4 kv hkv) (by simp)
        simpa [stringInputConfig] using this
      simp [InputSignature.new, harg]
    simp only [signatures_from_report, e1, e2, e3, e4]
    rfl
  · rfl

/-- Witness for C2 at the concrete example report. -/
theorem spec_C2_signatures_from_report_witness :
    signatures_from_report
        { cell_depended_values := [("a", ()), ("b", ())],
          cell_exposed_values := [("c", ())],
          triggerable_functions := [("f", { arguments := ["x", "y"] })] } =
      ({ globals := [("a", stringInputConfig), ("b", stringInputConfig)], args := [] },
       { globals := [("c", OutputItemConfiguration.Value)],
         functions := [("f", OutputItemConfiguration.Function
           { globals := [], args := [("x", stringInputConfig), ("y", stringInputConfig)] }
           [] [])] }) := by
  have h := spec_C2_signatures_from_report.1
    { cell_depended_values := [("a", ()), ("b", ())],
      cell_exposed_values := [("c", ())],
      triggerable_functions := [("f", { arguments := ["x", "y"] })] }
    (by decide) (by decide) (by decide) (by decide)
  simpa using h

/-- Model of the JavaScript values produced by `RkyvSerializedValue::to_object`
in `sdk/bindings.rs` (neon `JsValue`): numbers, strings, booleans, null,
arrays and objects. Both `Float` and `Number` payloads become a JS number
(`cx.number(*x as f64)`); the numeric payload keeps the `Int` abstraction. -/
inductive JsValue where
  | number (x : Int)
  | str (s : String)
  | boolean (b : Bool)
  | null
  | array (xs : List JsValue)
  | object (fields : List (String × JsValue))
deriving Repr, Inhabited

mutual

/-- `RkyvSerializedValue::to_object` (bindings.rs lines 29-65). `none` models
a non-successful outcome: a thrown JS error propagated by `?`/`unwrap`, or
the `unreachable!()` panic on the two opaque marker kinds. -/
def RkyvSerializedValue.to_object : RkyvSerializedValue → Option JsValue
  | .Float x => some (.number x)
  | .Number x => some (.number x)
  | .String x => some (.str x)
  | .Boolean x => some (.boolean x)
  | .Null => some .null
  | .Array val => (to_object_list val).map JsValue.array
  | .Object val => (to_object_fields val).map JsValue.object
  | .StreamPointer _ => none
  | .FunctionPointer _ => none

/-- The `Array` branch loop of `to_object`: converts each element, failing
as soon as one element fails. -/
def to_object_list : List RkyvSerializedValue → Option (List JsValue)
  | [] => some []
  | v :: vs =>
    match v.to_object, to_object_list vs with
    | some j, some js => some (j :: js)
    | _, _ => none

/-- The `Object` branch loop of `to_object`: converts each field value,
failing as soon as one fails. -/
def to_object_fields : List (String × RkyvSerializedValue) →
    Option (List (String × JsValue))
  | [] => some []
  | kv :: vs =>
    match kv.2.to_object, to_object_fields vs with
    | some j, some js => some ((kv.1, j) :: js)
    | _, _ => none

end

mutual

/-- A value built only from float, number, string, boolean, null, array and
object — no `StreamPointer` or `FunctionPointer` anywhere inside. -/
def RkyvSerializedValue.marker_free : RkyvSerializedValue → Bool
  | .Float _ => true
  | .Number _ => true
  | .String _ => true
  | .Boolean _ => true
  | .Null => true
  | .Array val => marker_free_list val
  | .Object val => marker_free_fields val
  | .StreamPointer _ => false
  | .FunctionPointer _ => false

/-- `marker_free` on every element of a list. -/
def marker_free_list : List RkyvSerializedValue → Bool
  | [] => true
  | v :: vs => v.marker_free && marker_free_list vs

/-- `marker_free` on every field value of an object. -/
def marker_free_fields : List (String × RkyvSerializedValue) → Bool
  | [] => true
  | kv :: vs => kv.2.marker_free && marker_free_fields vs

end

mutual

theorem to_object_isSome_of_marker_free :
    ∀ v : RkyvSerializedValue, v.marker_free = true → v.to_object.isSome = true
  | .Float _, _ => rfl
  | .Number _, _ => rfl
  | .String _, _ => rfl
  | .Boolean _, _ => rfl
  | .Null, _ => rfl
  | .Array val, h => by
    have hl := to_object_list_isSome_of_marker_free val
      (by simpa [RkyvSerializedValue.marker_free] using h)
    rcases Option.isSome_iff_exists.mp hl with ⟨js, hjs⟩
    simp [RkyvSerializedValue.to_object, hjs]
  | .Object val, h => by
    have hl := to_object_fields_isSome_of_marker_free val
      (by simpa [RkyvSerializedValue.marker_free] using h)
    rcases Option.isSome_iff_exists.mp hl with ⟨js, hjs⟩
    simp [RkyvSerializedValue.to_object, hjs]

theorem to_object_list_isSome_of_marker_free :
    ∀ vs : List RkyvSerializedValue, marker_free_list vs = true →
      (to_object_list vs).isSome = true
  | [], _ => rfl
  | v :: vs, h => by
    simp only [marker_free_list] at h
    rw [Bool.and_eq_true] at h
    have hv : v.marker_free = true := h.1
    have hvs : marker_free_list vs = true := h.2
    have h1 := to_object_isSome_of_marker_free v hv
    have h2 := to_object_list_isSome_of_marker_free vs hvs
    rcases Option.isSome_iff_exists.mp h1 with ⟨j, hj⟩
    rcases Option.isSome_iff_exists.mp h2 with ⟨js, hjs⟩
    simp [to_object_list, hj, hjs]

theorem to_object_fields_isSome_of_marker_free :
    ∀ vs : List (String × RkyvSerializedValue), marker_free_fields vs = true →
      (to_object_fields vs).isSome = true
  | [], _ => rfl
  | kv :: vs, h => by
    simp only [marker_free_fields] at h
    rw [Bool.and_eq_true] at h
    have hv : kv.2.marker_free = true := h.1
    have hvs : marker_free_fields vs = true := h.2
    have h1 := to_object_isSome_of_marker_free kv.2 hv
    have h2 := to_object_fields_isSome_of_marker_free vs hvs
    rcases Option.isSome_iff_exists.mp h1 with ⟨j, hj⟩
    rcases Option.isSome_iff_exists.mp h2 with ⟨js, hjs⟩
    simp [to_object_fields, hj, hjs]

end

/-- C8: `to_object` never silently coerces the two opaque marker kinds —
`StreamPointer` and `FunctionPointer` values never yield a successful JS
value — while every value built only from float, number, string, boolean,
null, array and object converts successfully. -/
theorem spec_C8_to_object_rejects_markers :
    (∀ p : Nat, (RkyvSerializedValue.StreamPointer p).to_object = none) ∧
    (∀ p : Nat, (RkyvSerializedValue.FunctionPointer p).to_object = none) ∧
    (∀ v : RkyvSerializedValue, v.marker_free = true → v.to_object.isSome = true) :=
  ⟨fun _ => rfl, fun _ => rfl, to_object_isSome_of_marker_free⟩

/-- Witness for C8 at concrete inputs: a nested marker-free value converts
successfully, and a stream pointer is rejected. -/
theorem spec_C8_to_object_rejects_markers_witness :
    (RkyvSerializedValue.Array
      [RkyvSerializedValue.String "s",
       RkyvSerializedValue.Object [("k", RkyvSerializedValue.Number 1)]]).marker_free = true ∧
    ((RkyvSerializedValue.Array
      [RkyvSerializedValue.String "s",
       RkyvSerializedValue.Object [("k", RkyvSerializedValue.Number 1)]]).to_object).isSome = true ∧
    (RkyvSerializedValue.StreamPointer 0).to_object = none :=
  ⟨rfl,
   spec_C8_to_object_rejects_markers.2.2 _ rfl,
   spec_C8_to_object_rejects_markers.1 0⟩

/-- `ExecutionState`: the opaque, caller-owned mutable context threaded
through invocations (spec §3). The core never inspects it, so it is
modelled as an opaque token. -/
structure ExecutionState where
  token : Nat
deriving Repr, DecidableEq, Inhabited

/-- `ExecutionState::new()` (used by the Deno closure in code_cell.rs). -/
def ExecutionState.new : ExecutionState := ⟨0⟩

/-- `OperationFnOutput` (the Output Envelope, spec §3): `has_error`,
optional replacement execution state, the output result, and captured
stdout/stderr lines. The field set follows the spec and the explicit
construction in code_gen_cell.rs lines 128-134; the construction in
code_cell.rs lines 38-43 omits `has_error`, modelled there as `false`. -/
structure OperationFnOutput where
  has_error : Bool
  execution_state : Option ExecutionState
  output : Except String RkyvSerializedValue
  stdout : List String
  stderr : List String
deriving Repr, Inhabited

/-- Modelled from the spec: `OperationFnOutput::with_value` (from
`execution/primitives/operation.rs`, not among the given sources): an
envelope carrying just the given value — no error flag, no replacement
execution state, empty stdout and stderr. -/
def OperationFnOutput.with_value (v : RkyvSerializedValue) : OperationFnOutput :=
  { has_error := false, execution_state := none, output := Except.ok v,
    stdout := [], stderr := [] }

/-- `SupportedLanguage` for source-code cells. -/
inductive SupportedLanguage where
  | PyO3
  | Starlark
  | Deno
deriving Repr, DecidableEq, Inhabited

/-- `CodeCell { name, language, source_code, function_invocation }`. -/
structure CodeCell where
  name : Option String
  language : SupportedLanguage
  source_code : String
  function_invocation : Bool
deriving Repr, DecidableEq, Inhabited

/-- The invocation closure type of a compiled source-code cell
(`Box<OperationFn>`): execution state, input value, configuration and
side-channel handle (both unused by these closures, modelled as `Unit`) to
an envelope. Rust panics inside the closure (the `.unwrap()` on the Python
runtime result, the `panic!` in the Deno error arm) are modelled as
`Except.error`. -/
def OperationClosure :=
  ExecutionState → RkyvSerializedValue → Unit → Unit → Except String OperationFnOutput

/-- Opaque output of `extract_dependencies_python` (external analyzer). -/
structure PythonDepPaths where
  token : Nat
deriving Repr, DecidableEq, Inhabited

/-- Opaque output of `extract_dependencies_js` (external analyzer). -/
structure JsDepPaths where
  token : Nat
deriving Repr, DecidableEq, Inhabited

/-- The external collaborators used by `code_cell`: the per-language static
analyzers and the embedded runtimes (spec §6). `source_code_run_python`
returns the triple `(output result, stdout, stderr)` inside an outer result
that models `.await.unwrap()`-able failure; `source_code_run_deno` returns
the value triple or an error (the closure panics on the error arm). -/
structure CodeCellCollab where
  extract_dependencies_python : String → Except String PythonDepPaths
  build_report_python : PythonDepPaths → Report
  extract_dependencies_js : String → JsDepPaths
  build_report_js : JsDepPaths → Report
  source_code_run_python : ExecutionState → String → RkyvSerializedValue → Bool →
    Except String (Except String RkyvSerializedValue × List String × List String)
  source_code_run_deno : ExecutionState → String → RkyvSerializedValue → Bool →
    Except String (RkyvSerializedValue × List String × List String)

namespace CodeOp

/-- The `OperationNode` shape used by code_cell.rs:
`OperationNode::new(name, input_signature, output_signature, closure)`. -/
structure OperationNode where
  name : Option String
  input_signature : InputSignature
  output_signature : OutputSignature
  operation : OperationClosure

end CodeOp

/-- `code_cell` (code_cell.rs lines 9-91): compiles a source-code cell into
an operation node, dispatching on the language. PyO3 and Deno run their
static analyzers and derive signatures; Starlark (no static-analysis
collaborator) gets empty signatures and a pass-through closure. -/
def code_cell (collab : CodeCellCollab) (cell : CodeCell) :
    Except String CodeOp.OperationNode :=
  match cell.language with
  | SupportedLanguage.PyO3 => do
    let paths ← collab.extract_dependencies_python cell.source_code
    let report := collab.build_report_python paths
    let (input_signature, output_signature) := signatures_from_report report
    Except.ok
      { name := cell.name, input_signature := input_signature,
        output_signature := output_signature,
        operation := fun s x _ _ =>
          match collab.source_code_run_python s cell.source_code x
              cell.function_invocation with
          | Except.ok (out, out_stdout, out_stderr) =>
            Except.ok
              { has_error := false, execution_state := none, output := out,
                stdout := out_stdout, stderr := out_stderr }
          | Except.error e => Except.error e }
  | SupportedLanguage.Starlark =>
    Except.ok
      { name := cell.name, input_signature := InputSignature.new,
        output_signature := OutputSignature.new,
        operation := fun _ x _ _ => Except.ok (OperationFnOutput.with_value x) }
  | SupportedLanguage.Deno =>
    let paths := collab.extract_dependencies_js cell.source_code
    let report := collab.build_report_js paths
    let (input_signature, output_signature) := signatures_from_report report
    Except.ok
      { name := cell.name, input_signature := input_signature,
        output_signature := output_signature,
        operation := fun _ x _ _ =>
          match collab.source_code_run_deno ExecutionState.new cell.source_code x
              cell.function_invocation with
          | Except.ok result => Except.ok (OperationFnOutput.with_value result.1)
          | Except.error e => Except.error e }

/-- C5: a source-code cell compiled for the language with no static-analysis
collaborator (Starlark) yields a node with empty input and output signatures
whose closure returns the input value unchanged, with `has_error = false`,
no replacement execution state and empty stdout/stderr, for every input and
every collaborator bundle. -/
theorem spec_C5_starlark_passthrough (collab : CodeCellCollab) (cell : CodeCell)
    (h : cell.language = SupportedLanguage.Starlark) :
    ∃ node, code_cell collab cell = Except.ok node ∧
      node.input_signature = InputSignature.new ∧
      node.output_signature = OutputSignature.new ∧
      ∀ (s : ExecutionState) (v : RkyvSerializedValue) (c hdl : Unit),
        node.operation s v c hdl =
          Except.ok
            { has_error := false, execution_state := none, output := Except.ok v,
              stdout := [], stderr := [] } := by
  obtain ⟨nm, lang, src, finv⟩ := cell
  simp only at h
  subst h
  exact ⟨_, rfl, rfl, rfl, fun _ _ _ _ => rfl⟩

/-- A stub collaborator bundle used to exercise `code_cell` on concrete
inputs. -/
def stubCodeCellCollab : CodeCellCollab :=
  { extract_dependencies_python := fun _ => Except.ok ⟨0⟩,
    build_report_python := fun _ => default,
    extract_dependencies_js := fun _ => ⟨0⟩,
    build_report_js := fun _ => default,
    source_code_run_python := fun _ _ _ _ => Except.error "stub",
    source_code_run_deno := fun _ _ _ _ => Except.error "stub" }

/-- Witness for C5 at a concrete Starlark cell and input. -/
theorem spec_C5_starlark_passthrough_witness :
    ({ name := some "s", language := SupportedLanguage.Starlark,
       source_code := "x + 1", function_invocation := false } :
      CodeCell).language = SupportedLanguage.Starlark ∧
    ∃ node, code_cell stubCodeCellCollab
        { name := some "s", language := SupportedLanguage.Starlark,
          source_code := "x + 1", function_invocation := false } = Except.ok node ∧
      node.input_signature = InputSignature.new ∧
      node.output_signature = OutputSignature.new ∧
      ∀ (s : ExecutionState) (v : RkyvSerializedValue) (c hdl : Unit),
        node.operation s v c hdl =
          Except.ok
            { has_error := false, execution_state := none, output := Except.ok v,
              stdout := [], stderr := [] } :=
  ⟨rfl, spec_C5_starlark_passthrough stubCodeCellCollab _ rfl⟩

/-- `SupportedModelProviders` for LLM cells; only OpenAI exists. -/
inductive SupportedModelProviders where
  | OpenAI
deriving Repr, DecidableEq, Inhabited

/-- `ExecutionNodeId` (execution graph node identity), modelled opaquely. -/
abbrev ExecutionNodeId := Nat

/-- `TextRange` attached to cells; its fields are never read by these
sources, so it is modelled opaquely. -/
structure TextRange where
  start : Nat := 0
  stop : Nat := 0
deriving Repr, DecidableEq, Inhabited

/-- `ChatModelRoles` from the chidori-prompt-format templating engine. -/
inductive ChatModelRoles where
  | User
  | System
  | Assistant
deriving Repr, DecidableEq, Inhabited

/-- `TemplateWithSource` from chidori-prompt-format; only its `source`
field is read by these sources. -/
structure TemplateWithSource where
  source : String
deriving Repr, DecidableEq, Inhabited

/-- One extracted role-tagged block: a role and its optional compiled
template (spec §6). -/
abbrev RoleBlock := ChatModelRoles × Option TemplateWithSource

/-- The schema produced by `analyze_referenced_partials`: the referenced
placeholder names (spec §6: `Schema{ items: mapping name→ignored }`). -/
structure Schema where
  items : List (String × Unit)
deriving Repr, DecidableEq, Inhabited

/-- `LLMCodeGenCell { name, provider, function_invocation, complete_body }`. -/
structure LLMCodeGenCell where
  name : Option String
  provider : SupportedModelProviders
  function_invocation : Bool
  complete_body : String
deriving Repr, DecidableEq, Inhabited

/-- `LLMCodeGenCellChatConfiguration`, parsed from the cell's front-matter;
the sources only read its optional `function_name` (spec §4.4: at minimum
an optional callable-function name). -/
structure LLMCodeGenCellChatConfiguration where
  function_name : Option String
deriving Repr, DecidableEq, Inhabited

/-- `LLMPromptCell`: Chat / Completion / Embedding variants. The Chat
variant carries its provider and template body `req`; further fields
(matched away by `..` in the sources) are elided. -/
inductive LLMPromptCell where
  | Chat (provider : SupportedModelProviders) (req : String)
  | Completion (req : String)
  | Embedding (req : String)
deriving Repr, DecidableEq, Inhabited

/-- `CellTypes`: the tagged cell variant stored inside a compiled node
(code_gen_cell.rs line 80). -/
inductive CellTypes where
  | Code (cell : CodeCell) (range : TextRange)
  | Prompt (cell : LLMPromptCell) (range : TextRange)
  | CodeGen (cell : LLMCodeGenCell) (range : TextRange)
deriving Repr, DecidableEq, Inhabited

/-- A compile-time failure of `code_gen_cell`: either a recoverable
`anyhow` error propagated with `?` (`err`), or a Rust panic — fatal and
non-recoverable — modelled as the distinguished `panicFatal` value. -/
inductive CompileFailure where
  | err (msg : String)
  | panicFatal (msg : String)
deriving Repr, DecidableEq, Inhabited

/-- The external chidori-prompt-format collaborators used by
code_gen_cell.rs (spec §6): front-matter splitting, YAML configuration
parsing (`serde_yaml::from_str`), placeholder analysis (whose result is
`.unwrap()`ed by the sources, hence `Option`) and role extraction. -/
structure PromptFormatCollab where
  split_frontmatter : String → Except String (String × String)
  parse_configuration : String → Except String LLMCodeGenCellChatConfiguration
  analyze_referenced_partials : String → Option Schema
  extract_roles_from_template : String → List RoleBlock

/-- The fixed system-role instruction template synthesized by
code_gen_cell.rs lines 28-33 and 102-107 (braces written as escapes):
it instructs the model to output only the function's source code and no
usage examples. -/
def codeGenSystemPromptTemplate : String :=
  "\n\x7b\x7b#system\x7d\x7d\n   You are a developer working on a code generation tool. You have been tasked with creating a function that performs the described functionality.\n   Output only the source code for the function. Do not include examples of running the function.\n\x7b\x7b/system\x7d\x7d\n    "

/-- The role-block sequence assembled for rendering by both
`code_gen_cell` and `code_gen_cell_exec_openai`: the blocks extracted from
the fixed synthesized system template, extended with the blocks extracted
from the cell's own template body, in that order. -/
def code_gen_role_blocks (collab : PromptFormatCollab) (req : String) :
    List RoleBlock :=
  collab.extract_roles_from_template codeGenSystemPromptTemplate
    ++ collab.extract_roles_from_template req

namespace GenOp

/-- The `OperationNode` shape used by code_gen_cell.rs:
`OperationNode::new(name, execution_state_id, input_signature,
output_signature, cell_type)`. -/
structure OperationNode where
  name : Option String
  execution_state_id : ExecutionNodeId
  input_signature : InputSignature
  output_signature : OutputSignature
  cell_type : CellTypes

end GenOp

/-- `code_gen_cell` (code_gen_cell.rs lines 13-84): compiles an LLM
code-generation cell. Front-matter split and YAML parse failures propagate
as recoverable errors (`?`); the `.unwrap()` on the placeholder schema and
the explicit `panic!` for a function-invocation cell without a declared
function name are modelled as `CompileFailure.panicFatal`, preserving the
source's evaluation order (the schema unwrap happens while building the
input signature, before the function-invocation check). -/
def code_gen_cell (collab : PromptFormatCollab)
    (execution_state_id : ExecutionNodeId) (cell : LLMCodeGenCell)
    (range : TextRange) :
    Except CompileFailure GenOp.OperationNode :=
  match collab.split_frontmatter cell.complete_body with
  | Except.error e => Except.error (CompileFailure.err e)
  | Except.ok (frontmatter, req) =>
    match collab.parse_configuration frontmatter with
    | Except.error e => Except.error (CompileFailure.err e)
    | Except.ok configuration =>
      let schema := collab.analyze_referenced_partials req
      let _role_blocks := code_gen_role_blocks collab req
      let output_signature :=
        let os :=
          match configuration.function_name with
          | some fn_name =>
            { OutputSignature.new with
              functions := insertKV OutputSignature.new.functions fn_name
                OutputItemConfiguration.Value }
          | none => OutputSignature.new
        match cell.name with
        | some n =>
          { os with globals := insertKV os.globals n OutputItemConfiguration.Value }
        | none => os
      let input_signature : Except CompileFailure InputSignature :=
        if configuration.function_name.isNone then
          match schema with
          | some sch =>
            Except.ok
              { InputSignature.new with
                globals := sch.items.foldl
                  (fun g kv =>
                    insertKV g kv.1 { ty := some InputType.String, default := none })
                  InputSignature.new.globals }
          | none =>
            Except.error (CompileFailure.panicFatal
              "called Option::unwrap() on a None value")
        else
          Except.ok InputSignature.new
      match input_signature with
      | Except.error e => Except.error e
      | Except.ok input_signature =>
        if configuration.function_name.isNone && cell.function_invocation then
          Except.error (CompileFailure.panicFatal
            "Cell is called as a function invocation without a declared fn name")
        else
          match cell.provider with
          | SupportedModelProviders.OpenAI =>
            Except.ok
              { name := cell.name, execution_state_id := execution_state_id,
                input_signature := input_signature,
                output_signature := output_signature,
                cell_type := CellTypes.CodeGen cell default }

/-- The external `ai_llm_code_generation_chat_model` provider backend used
by `code_gen_cell_exec_openai` (from `library/std/ai/llm`, not among the
given sources): execution state, payload, role blocks, cell name,
function-invocation flag and configuration to a generated value plus an
optional replacement execution state. -/
def CodeGenBackend :=
  ExecutionState → RkyvSerializedValue → List RoleBlock → Option String →
    Bool → LLMCodeGenCellChatConfiguration →
    Except String (RkyvSerializedValue × Option ExecutionState)

/-- `code_gen_cell_exec_openai` (code_gen_cell.rs lines 86-137): builds the
invocation closure for a code-generation cell. The `.unwrap()`s on
front-matter split and YAML parse are modelled as `panicFatal`. The
returned closure is instrumented with the number of provider-backend calls
it performs (second component), so that the zero-backend-call property of
the short-circuit path is expressible; the backend itself is an explicit
parameter, so the closure's result being independent of it is also
expressible. -/
def code_gen_cell_exec_openai (collab : PromptFormatCollab)
    (backend : CodeGenBackend) (cell : LLMCodeGenCell) :
    Except CompileFailure
      (ExecutionState → RkyvSerializedValue → Unit → Unit →
        Except String OperationFnOutput × Nat) :=
  match collab.split_frontmatter cell.complete_body with
  | Except.error e => Except.error (CompileFailure.panicFatal e)
  | Except.ok (frontmatter, req) =>
    match collab.parse_configuration frontmatter with
    | Except.error e => Except.error (CompileFailure.panicFatal e)
    | Except.ok configuration =>
      let _schema := collab.analyze_referenced_partials req
      let role_blocks := code_gen_role_blocks collab req
      Except.ok (fun s payload _ _ =>
        if configuration.function_name.isSome && !cell.function_invocation then
          (Except.ok (OperationFnOutput.with_value RkyvSerializedValue.Null), 0)
        else
          match backend s payload role_blocks cell.name cell.function_invocation
              configuration with
          | Except.ok (value, state) =>
            (Except.ok
              { has_error := false, execution_state := state,
                output := Except.ok value, stdout := [], stderr := [] }, 1)
          | Except.error e => (Except.error e, 1))

/-- C1: compiling an LLM code-generation cell whose parsed front-matter
configuration declares no function name while the cell's
`function_invocation` flag is true fails deterministically with the fatal
configuration panic — it never returns an `OperationNode`, and the failure
is the compile-time `panicFatal` error, not a recoverable runtime error. -/
theorem spec_C1_code_gen_missing_fn_name_fatal (collab : PromptFormatCollab)
    (eid : ExecutionNodeId) (cell : LLMCodeGenCell) (range : TextRange)
    (fm req : String) (cfg : LLMCodeGenCellChatConfiguration) (sch : Schema)
    (hsplit : collab.split_frontmatter cell.complete_body = Except.ok (fm, req))
    (hcfg : collab.parse_configuration fm = Except.ok cfg)
    (hname : cfg.function_name = none)
    (hinv : cell.function_invocation = true)
    (hschema : collab.analyze_referenced_partials req = some sch) :
    code_gen_cell collab eid cell range =
      Except.error (CompileFailure.panicFatal
        "Cell is called as a function invocation without a declared fn name") := by
  simp only [code_gen_cell, hsplit, hcfg, hname, hinv, hschema, Option.isNone_none,
    Bool.true_and, Bool.and_true, if_true]

/-- A stub prompt-format collaborator whose parsed configuration declares
no function name. -/
def stubCollabNoFnName : PromptFormatCollab :=
  { split_frontmatter := fun body => Except.ok ("", body),
    parse_configuration := fun _ => Except.ok { function_name := none },
    analyze_referenced_partials := fun _ => some { items := [] },
    extract_roles_from_template := fun _ => [] }

/-- A stub prompt-format collaborator whose parsed configuration declares
the function name `f`. -/
def stubCollabWithFnName : PromptFormatCollab :=
  { split_frontmatter := fun body => Except.ok ("", body),
    parse_configuration := fun _ => Except.ok { function_name := some "f" },
    analyze_referenced_partials := fun _ => some { items := [("x", ())] },
    extract_roles_from_template := fun _ => [] }

/-- Witness for C1 at a concrete function-invocation cell without a
declared function name. -/
theorem spec_C1_code_gen_missing_fn_name_fatal_witness :
    code_gen_cell stubCollabNoFnName 0
        { name := none, provider := SupportedModelProviders.OpenAI,
          function_invocation := true, complete_body := "body" } {} =
      Except.error (CompileFailure.panicFatal
        "Cell is called as a function invocation without a declared fn name") :=
  spec_C1_code_gen_missing_fn_name_fatal stubCollabNoFnName 0 _ {} "" "body"
    { function_name := none } { items := [] } rfl rfl rfl rfl rfl

/-- C9: when the parsed front-matter configuration declares a function
name, `code_gen_cell` succeeds with a node whose `InputSignature` is empty
— no template placeholder is inserted into `globals`, regardless of what
the placeholder analysis of the template reports. -/
theorem spec_C9_code_gen_fn_named_empty_input_signature
    (collab : PromptFormatCollab) (eid : ExecutionNodeId)
    (cell : LLMCodeGenCell) (range : TextRange) (fm req fname : String)
    (cfg : LLMCodeGenCellChatConfiguration)
    (hsplit : collab.split_frontmatter cell.complete_body = Except.ok (fm, req))
    (hcfg : collab.parse_configuration fm = Except.ok cfg)
    (hname : cfg.function_name = some fname) :
    ∃ node, code_gen_cell collab eid cell range = Except.ok node ∧
      node.input_signature = InputSignature.new ∧
      node.input_signature.globals = [] := by
  simp only [code_gen_cell, hsplit, hcfg, hname, Option.isNone_some, Bool.false_and,
    if_false, Bool.false_eq_true]
  cases hprov : cell.provider
  exact ⟨_, rfl, rfl, rfl⟩

/-- Witness for C9 at a concrete cell whose template references a
placeholder; the input signature is still empty. -/
theorem spec_C9_code_gen_fn_named_empty_input_signature_witness :
    ∃ node, code_gen_cell stubCollabWithFnName 0
        { name := some "cell", provider := SupportedModelProviders.OpenAI,
          function_invocation := false, complete_body := "body" } {} =
        Except.ok node ∧
      node.input_signature = InputSignature.new ∧
      node.input_signature.globals = [] :=
  spec_C9_code_gen_fn_named_empty_input_signature stubCollabWithFnName 0 _ {}
    "" "body" "f" { function_name := some "f" } rfl rfl rfl

/-- C4: the role-block sequence assembled for rendering by the
code-generation cell always begins with the block extracted from the fixed
synthesized system-role instruction template, followed by the cell's own
extracted role blocks in their original order, for any number of
cell-defined blocks. The hypothesis pins down the external role extractor
on the fixed template only: per the spec it yields exactly the one
synthesized system block. -/
theorem spec_C4_role_blocks_fixed_system_first (collab : PromptFormatCollab)
    (req : String) (instr : Option TemplateWithSource)
    (hfixed : collab.extract_roles_from_template codeGenSystemPromptTemplate =
      [(ChatModelRoles.System, instr)]) :
    code_gen_role_blocks collab req =
      (ChatModelRoles.System, instr) :: collab.extract_roles_from_template req := by
  simp [code_gen_role_blocks, hfixed]

/-- A stub role extractor that returns the synthesized system block for the
fixed template and two user blocks for anything else. -/
def stubCollabRoles : PromptFormatCollab :=
  { split_frontmatter := fun body => Except.ok ("", body),
    parse_configuration := fun _ => Except.ok { function_name := none },
    analyze_referenced_partials := fun _ => some { items := [] },
    extract_roles_from_template := fun t =>
      if t = codeGenSystemPromptTemplate then
        [(ChatModelRoles.System, some { source := "instruction" })]
      else
        [(ChatModelRoles.User, some { source := "u1" }),
         (ChatModelRoles.Assistant, some { source := "a1" })] }

/-- Witness for C4 at a concrete extractor and a cell template with two
role blocks. -/
theorem spec_C4_role_blocks_fixed_system_first_witness :
    code_gen_role_blocks stubCollabRoles "body" =
      (ChatModelRoles.System, some { source := "instruction" }) ::
        stubCollabRoles.extract_roles_from_template "body" :=
  spec_C4_role_blocks_fixed_system_first stubCollabRoles "body"
    (some { source := "instruction" }) (by simp [stubCollabRoles])

/-- C3: the closure built by `code_gen_cell_exec_openai` for a cell whose
configuration declares a function name, when the cell is not a function
invocation, returns the null-value envelope, performs zero backend calls
(the instrumented call counter is 0) and is independent of the backend and
of the execution state and payload — no side effects. -/
theorem spec_C3_fn_named_not_invoked_short_circuit (collab : PromptFormatCollab)
    (backend : CodeGenBackend) (cell : LLMCodeGenCell) (fm req fname : String)
    (cfg : LLMCodeGenCellChatConfiguration)
    (hsplit : collab.split_frontmatter cell.complete_body = Except.ok (fm, req))
    (hcfg : collab.parse_configuration fm = Except.ok cfg)
    (hname : cfg.function_name = some fname)
    (hinv : cell.function_invocation = false) :
    ∃ op, code_gen_cell_exec_openai collab backend cell = Except.ok op ∧
      ∀ (s : ExecutionState) (payload : RkyvSerializedValue) (c hdl : Unit),
        op s payload c hdl =
          (Except.ok (OperationFnOutput.with_value RkyvSerializedValue.Null), 0) := by
  simp only [code_gen_cell_exec_openai, hsplit, hcfg]
  refine ⟨_, rfl, fun s payload c hdl => ?_⟩
  simp [hname, hinv]

/-- Witness for C3: a concrete function-named, non-invocation cell
short-circuits to the null envelope with a zero backend-call count, under a
backend stub that would return a sentinel value if it were ever called. -/
theorem spec_C3_fn_named_not_invoked_short_circuit_witness :
    ∃ op, code_gen_cell_exec_openai stubCollabWithFnName
        (fun _ _ _ _ _ _ => Except.ok (RkyvSerializedValue.String "sentinel", none))
        { name := some "cell", provider := SupportedModelProviders.OpenAI,
          function_invocation := false, complete_body := "body" } = Except.ok op ∧
      ∀ (s : ExecutionState) (payload : RkyvSerializedValue) (c hdl : Unit),
        op s payload c hdl =
          (Except.ok (OperationFnOutput.with_value RkyvSerializedValue.Null), 0) :=
  spec_C3_fn_named_not_invoked_short_circuit stubCollabWithFnName _ _ "" "body"
    "f" { function_name := some "f" } rfl rfl rfl rfl

/-- `MessageRole` from `library/std/ai/llm`. -/
inductive MessageRole where
  | User
  | System
  | Assistant
  | Function
deriving Repr, DecidableEq, Inhabited

/-- `FunctionCall { name, arguments }` carried by a chat message. -/
structure FunctionCall where
  name : String
  arguments : String
deriving Repr, DecidableEq, Inhabited

/-- `TemplateMessage`: one rendered chat message (llm_prompt_cell.rs
lines 54-63). -/
structure TemplateMessage where
  role : MessageRole
  content : String
  name : Option String
  function_call : Option FunctionCall
deriving Repr, DecidableEq, Inhabited

/-- `ChatCompletionReq`: the batched chat-completion request. Only `model`
and `template_messages` are set by these sources; the sampling and
identification parameters filled by `..ChatCompletionReq::default()` are
opaque to every claim and elided. -/
structure ChatCompletionReq where
  model : String
  template_messages : List TemplateMessage
deriving Repr, DecidableEq, Inhabited

/-- `ChatCompletionReq::default()`. -/
def ChatCompletionReq.default : ChatCompletionReq :=
  { model := "", template_messages := [] }

/-- `ChatCompletionChoice` as constructed by batch.rs lines 76-81. -/
structure ChatCompletionChoice where
  text : Option String
  index : Nat
  logprobs : Option Unit
  finish_reason : String
deriving Repr, DecidableEq, Inhabited

/-- Token `Usage` as constructed by batch.rs lines 83-87. -/
structure Usage where
  prompt_tokens : Nat
  completion_tokens : Nat
  total_tokens : Nat
deriving Repr, DecidableEq, Inhabited

/-- `ChatCompletionRes`: the provider response surfaced to the closures. -/
structure ChatCompletionRes where
  id : String
  object : String
  created : Nat
  model : String
  choices : List ChatCompletionChoice
  usage : Usage
deriving Repr, DecidableEq, Inhabited

/-- Message role of the external openai_api_rs crate (batch.rs maps onto
it). -/
inductive ApiMessageRole where
  | user
  | system
  | assistant
  | function
deriving Repr, DecidableEq, Inhabited

/-- `ChatCompletionMessage` of the external openai_api_rs crate, modelled
with the fields batch.rs writes. -/
structure ApiChatMessage where
  role : ApiMessageRole
  content : String
  name : Option String
  function_call : Option FunctionCall
deriving Repr, DecidableEq, Inhabited

/-- `ChatCompletionRequest` of the external crate, modelled with the fields
batch.rs fills from its own data (the pass-through sampling parameters are
opaque to every claim and elided). -/
structure ApiChatRequest where
  model : String
  messages : List ApiChatMessage
deriving Repr, DecidableEq, Inhabited

/-- The message inside one response choice of the external crate. -/
structure ApiChoiceMessage where
  content : Option String
deriving Repr, DecidableEq, Inhabited

/-- One response choice of the external crate. -/
structure ApiChoice where
  message : ApiChoiceMessage
deriving Repr, DecidableEq, Inhabited

/-- `ChatCompletionResponse` of the external crate, modelled with the
fields batch.rs reads. -/
structure ApiChatResponse where
  id : String
  object : String
  created : Nat
  model : String
  choices : List ApiChoice
  usage : Usage
deriving Repr, DecidableEq, Inhabited

/-- `APIError` of the external crate; batch.rs reads its `message`. -/
structure APIError where
  message : String
deriving Repr, DecidableEq, Inhabited

/-- `ChatModelBatch::batch` for `OpenAIChatModel` (batch.rs lines 26-90):
translates the request into the external client's shape, invokes the
client (an explicit parameter here), and maps the response back — each
choice's text is the choice message's content — or the error to its
message string. -/
def OpenAIChatModel.batch
    (client : ApiChatRequest → Except APIError ApiChatResponse)
    (chat_completion_req : ChatCompletionReq) : Except String ChatCompletionRes :=
  let req : ApiChatRequest :=
    { model := chat_completion_req.model,
      messages := chat_completion_req.template_messages.map (fun m =>
        { role :=
            match m.role with
            | MessageRole.User => ApiMessageRole.user
            | MessageRole.System => ApiMessageRole.system
            | MessageRole.Assistant => ApiMessageRole.assistant
            | MessageRole.Function => ApiMessageRole.function,
          content := m.content, name := m.name,
          function_call := m.function_call }) }
  match client req with
  | Except.ok res =>
    Except.ok
      { id := res.id, object := res.object, created := res.created,
        model := res.model,
        choices := res.choices.map (fun c =>
          { text := c.message.content, index := 0, logprobs := none,
            finish_reason := "" }),
        usage :=
          { prompt_tokens := res.usage.prompt_tokens,
            completion_tokens := res.usage.completion_tokens,
            total_tokens := res.usage.total_tokens } }
  | Except.error e => Except.error e.message

/-- Model of the serde_json values produced by
`serialized_value_to_json_value` (from serialized_value.rs, not among the
given sources); the prompt closure only forwards them to the renderer. -/
inductive JsonValue where
  | null
  | bool (b : Bool)
  | num (n : Int)
  | str (s : String)
  | arr (xs : List JsonValue)
  | obj (fields : List (String × JsonValue))
deriving Repr, Inhabited

/-- The external collaborators used by llm_prompt_cell.rs: placeholder
analysis (this file's vintage returns the schema directly), role
extraction, value-to-JSON conversion, template rendering, and the
`OPENAI_API_KEY` environment variable (`none` models an absent variable,
whose `.unwrap()` panics). -/
structure PromptCellCollab where
  analyze_referenced_partials : String → Schema
  extract_roles_from_template : String → List RoleBlock
  serialized_value_to_json_value : RkyvSerializedValue → JsonValue
  render_template_prompt : String → JsonValue → List (String × String) →
    Except String String
  env_openai_api_key : Option String

namespace PromptOp

/-- The `OperationNode` shape used by llm_prompt_cell.rs:
`OperationNode::new(input_signature, output_signature, closure)` with a
closure from the input value (plus an ignored second argument) to a value.
The Lean closure returns `Option`: `none` models a Rust panic inside the
closure (missing `globals` key, missing template, render failure, missing
API key, empty choices, absent choice text). -/
structure OperationNode where
  input_signature : InputSignature
  output_signature : OutputSignature
  operation : RkyvSerializedValue → Unit → Option RkyvSerializedValue

end PromptOp

/-- The substitution-namespace selection at llm_prompt_cell.rs lines 45-51:
an `Object` input contributes the value stored under its `"globals"` key
(`none` models the `.expect("should have globals key")` panic when the key
is absent); any other input is used whole. -/
def prompt_substitution_namespace (x : RkyvSerializedValue) :
    Option RkyvSerializedValue :=
  match x with
  | RkyvSerializedValue.Object m => lookupKV m "globals"
  | _ => some x

/-- The JSON data namespace handed to the renderer by the Chat closure: the
selected substitution namespace converted by
`serialized_value_to_json_value`. -/
def llm_prompt_chat_data (collab : PromptCellCollab)
    (x : RkyvSerializedValue) : Option JsonValue :=
  (prompt_substitution_namespace x).map collab.serialized_value_to_json_value

/-- Rendering of one role block into a `TemplateMessage`
(llm_prompt_cell.rs lines 53-64): the block's template is `.unwrap()`ed
and rendered against the data namespace with empty partials; `none` models
either panic. -/
def render_role_block (collab : PromptCellCollab) (data : JsonValue)
    (rb : RoleBlock) : Option TemplateMessage :=
  match rb.2 with
  | none => none
  | some t =>
    match collab.render_template_prompt t.source data [] with
    | Except.ok content =>
      some
        { role :=
            match rb.1 with
            | ChatModelRoles.User => MessageRole.User
            | ChatModelRoles.System => MessageRole.System
            | ChatModelRoles.Assistant => MessageRole.Assistant,
          content := content, name := none, function_call := none }
    | Except.error _ => none

/-- The Chat-variant invocation closure (llm_prompt_cell.rs lines 43-88):
select the substitution namespace, render every role block in order, read
the API key from the environment, issue one batched chat-completion call
(the `openai_batch` parameter stands for
`OpenAIChatModel::new(api_key)` + `ChatModelBatch::batch`), and return the
first choice's text on success or `Null` on provider failure. -/
def llm_prompt_chat_operation (collab : PromptCellCollab)
    (openai_batch : String → ChatCompletionReq → Except String ChatCompletionRes)
    (role_blocks : List RoleBlock) (x : RkyvSerializedValue) :
    Option RkyvSerializedValue :=
  match llm_prompt_chat_data collab x with
  | none => none
  | some data =>
    match role_blocks.mapM (render_role_block collab data) with
    | none => none
    | some template_messages =>
      match collab.env_openai_api_key with
      | none => none
      | some api_key =>
        match openai_batch api_key
            { ChatCompletionReq.default with
              model := "gpt-3.5-turbo", template_messages := template_messages } with
        | Except.ok res =>
          match res.choices.head? with
          | none => none
          | some c =>
            match c.text with
            | none => none
            | some t => some (RkyvSerializedValue.String t)
        | Except.error _ => some RkyvSerializedValue.Null

/-- `llm_prompt_cell` (llm_prompt_cell.rs lines 13-103): compiles an LLM
prompt cell. The Chat variant derives its input signature from the
template's referenced placeholders and binds the Chat closure; the
Completion and Embedding variants are pass-throughs with empty
signatures. -/
def llm_prompt_cell (collab : PromptCellCollab)
    (openai_batch : String → ChatCompletionReq → Except String ChatCompletionRes)
    (cell : LLMPromptCell) : PromptOp.OperationNode :=
  match cell with
  | LLMPromptCell.Chat provider req =>
    let schema := collab.analyze_referenced_partials req
    let role_blocks := collab.extract_roles_from_template req
    let input_signature :=
      { InputSignature.new with
        globals := schema.items.foldl
          (fun g kv =>
            insertKV g kv.1 { ty := some InputType.String, default := none })
          InputSignature.new.globals }
    match provider with
    | SupportedModelProviders.OpenAI =>
      { input_signature := input_signature,
        output_signature := OutputSignature.new,
        operation := fun x _ => llm_prompt_chat_operation collab openai_batch role_blocks x }
  | LLMPromptCell.Completion _ =>
    { input_signature := InputSignature.new,
      output_signature := OutputSignature.new,
      operation := fun x _ => some x }
  | LLMPromptCell.Embedding _ =>
    { input_signature := InputSignature.new,
      output_signature := OutputSignature.new,
      operation := fun x _ => some x }

/-- Whether a value is `Object`-shaped. -/
def RkyvSerializedValue.isObject : RkyvSerializedValue → Bool
  | RkyvSerializedValue.Object _ => true
  | _ => false

/-- C7: compiling a Completion-variant or Embedding-variant prompt cell
yields a node with empty input and output signatures whose closure is the
identity: invocation returns the input value unchanged (and never panics),
for every collaborator bundle, backend and input. -/
theorem spec_C7_completion_embedding_passthrough (collab : PromptCellCollab)
    (ob : String → ChatCompletionReq → Except String ChatCompletionRes)
    (req : String) :
    ((llm_prompt_cell collab ob (LLMPromptCell.Completion req)).input_signature
        = InputSignature.new ∧
     (llm_prompt_cell collab ob (LLMPromptCell.Completion req)).output_signature
        = OutputSignature.new ∧
     ∀ (x : RkyvSerializedValue) (u : Unit),
       (llm_prompt_cell collab ob (LLMPromptCell.Completion req)).operation x u
          = some x) ∧
    ((llm_prompt_cell collab ob (LLMPromptCell.Embedding req)).input_signature
        = InputSignature.new ∧
     (llm_prompt_cell collab ob (LLMPromptCell.Embedding req)).output_signature
        = OutputSignature.new ∧
     ∀ (x : RkyvSerializedValue) (u : Unit),
       (llm_prompt_cell collab ob (LLMPromptCell.Embedding req)).operation x u
          = some x) :=
  ⟨⟨rfl, rfl, fun _ _ => rfl⟩, ⟨rfl, rfl, fun _ _ => rfl⟩⟩

/-- C6: for a Chat-variant prompt node whose closure reaches the provider
call (namespace selected, role blocks rendered, API key present), a
successful provider call makes the invocation return the first choice's
text as a string value, and a failed provider call makes it return `Null`
— a value, not a propagated panic — so provider failures never raise past
the invocation boundary. -/
theorem spec_C6_chat_provider_result_handling (collab : PromptCellCollab)
    (ob : String → ChatCompletionReq → Except String ChatCompletionRes)
    (provider : SupportedModelProviders) (reqStr : String)
    (x : RkyvSerializedValue) (data : JsonValue)
    (template_messages : List TemplateMessage) (api_key : String)
    (hdata : llm_prompt_chat_data collab x = some data)
    (hmsgs : (collab.extract_roles_from_template reqStr).mapM
        (render_role_block collab data) = some template_messages)
    (hkey : collab.env_openai_api_key = some api_key) :
    (∀ e, ob api_key
        { ChatCompletionReq.default with
          model := "gpt-3.5-turbo", template_messages := template_messages }
        = Except.error e →
      (llm_prompt_cell collab ob (LLMPromptCell.Chat provider reqStr)).operation x ()
        = some RkyvSerializedValue.Null) ∧
    (∀ res c t, ob api_key
        { ChatCompletionReq.default with
          model := "gpt-3.5-turbo", template_messages := template_messages }
        = Except.ok res →
      res.choices.head? = some c → c.text = some t →
      (llm_prompt_cell collab ob (LLMPromptCell.Chat provider reqStr)).operation x ()
        = some (RkyvSerializedValue.String t)) := by
  cases provider
  constructor
  · intro e herr
    simp only [llm_prompt_cell, llm_prompt_chat_operation, hdata, hmsgs, hkey, herr]
  · intro res c t hok hc ht
    simp only [llm_prompt_cell, llm_prompt_chat_operation, hdata, hmsgs, hkey, hok, hc, ht]

/-- A stub prompt-cell collaborator bundle: one user role block, constant
rendering, a constant JSON conversion and a present API key. -/
def stubPromptCellCollab : PromptCellCollab :=
  { analyze_referenced_partials := fun _ => { items := [] },
    extract_roles_from_template := fun _ =>
      [(ChatModelRoles.User, some { source := "t" })],
    serialized_value_to_json_value := fun _ => JsonValue.null,
    render_template_prompt := fun _ _ _ => Except.ok "hello",
    env_openai_api_key := some "key" }

/-- Witness for C6: under a backend stub whose provider call fails, the
concrete Chat node invocation returns `Null` rather than raising. -/
theorem spec_C6_chat_provider_result_handling_witness :
    (llm_prompt_cell stubPromptCellCollab
        (fun _ _ => Except.error "connection refused")
        (LLMPromptCell.Chat SupportedModelProviders.OpenAI "body")).operation
        (RkyvSerializedValue.String "inp") () = some RkyvSerializedValue.Null :=
  (spec_C6_chat_provider_result_handling stubPromptCellCollab
    (fun _ _ => Except.error "connection refused")
    SupportedModelProviders.OpenAI "body" (RkyvSerializedValue.String "inp")
    JsonValue.null
    [{ role := MessageRole.User, content := "hello", name := none,
       function_call := none }]
    "key" rfl rfl rfl).1 "connection refused" rfl

/-- C10: the substitution namespace used by the Chat closure to render role
blocks depends on the input's shape: an `Object` input contributes exactly
the value stored under its `"globals"` key (whose absence is a panic, not a
fallback), while a non-`Object` input is used whole. -/
theorem spec_C10_chat_substitution_namespace (collab : PromptCellCollab) :
    (∀ (m : List (String × RkyvSerializedValue)) (g : RkyvSerializedValue),
      lookupKV m "globals" = some g →
      llm_prompt_chat_data collab (RkyvSerializedValue.Object m)
        = some (collab.serialized_value_to_json_value g)) ∧
    (∀ m, lookupKV m "globals" = none →
      llm_prompt_chat_data collab (RkyvSerializedValue.Object m) = none) ∧
    (∀ x : RkyvSerializedValue, x.isObject = false →
      llm_prompt_chat_data collab x
        = some (collab.serialized_value_to_json_value x)) := by
  refine ⟨?_, ?_, ?_⟩
  · intro m g h
    simp [llm_prompt_chat_data, prompt_substitution_namespace, h]
  · intro m h
    simp [llm_prompt_chat_data, prompt_substitution_namespace, h]
  · intro x hx
    cases x <;>
      simp_all [llm_prompt_chat_data, prompt_substitution_namespace,
        RkyvSerializedValue.isObject]

/-- Witness for C10 at a concrete Object input carrying a `"globals"`
entry. -/
theorem spec_C10_chat_substitution_namespace_witness :
    llm_prompt_chat_data stubPromptCellCollab
        (RkyvSerializedValue.Object [("globals", RkyvSerializedValue.Number 7)])
      = some (stubPromptCellCollab.serialized_value_to_json_value
          (RkyvSerializedValue.Number 7)) :=
  (spec_C10_chat_substitution_namespace stubPromptCellCollab).1
    [("globals", RkyvSerializedValue.Number 7)] (RkyvSerializedValue.Number 7) rfl

end Chidori
